import Mathlib

/-!
Verification of the glitter configuration data model and its
configuration-resolution / template-expansion behaviour, as a shallow
embedding of `src/config.rs` in Lean 4.  Rust `Option<T>` becomes
`Option T`, `Vec<T>` becomes `List T`, `String`/`PathBuf` become
`String`, and `i32` becomes `Int` with explicit 32-bit range bounds
where serde range checking matters.  Components the source excerpt
only declares data for (the argument resolver, the template engine,
config validation) are modelled from the specification and marked as
such in their doc comments.
-/

/-- The serde default function for `GlitterRc.commit_message`
(`fn commit_msg() -> String` in `src/config.rs`). -/
def commit_msg : String := "$1+"

/-- The CLI `Arguments` struct from `src/config.rs`.  The four
boolean-like flags are tri-state `Option (Option Bool)` exactly as in
the source (`Option<Option<bool>>`): `none` means the flag was absent,
`some none` means it appeared bare, `some (some b)` means it appeared
with an explicit value `b`. -/
structure Arguments where
  action : String
  arguments : List String
  rc_path : String
  branch : Option String
  dry : Option (Option Bool)
  nohost : Option (Option Bool)
  raw : Option (Option Bool)
  no_verify : Option (Option Bool)
  deriving Repr, DecidableEq

/-- Accessor `Arguments::dry` from `src/config.rs`: resolves the
tri-state `dry` field to a boolean. -/
def Arguments.dry' (a : Arguments) : Bool :=
  match a.dry with
  | none => false
  | some none => true
  | some (some b) => b

/-- Accessor `Arguments::nohost` from `src/config.rs`. -/
def Arguments.nohost' (a : Arguments) : Bool :=
  match a.nohost with
  | none => false
  | some none => true
  | some (some b) => b

/-- Accessor `Arguments::raw` from `src/config.rs`. -/
def Arguments.raw' (a : Arguments) : Bool :=
  match a.raw with
  | none => false
  | some none => true
  | some (some b) => b

/-- Accessor `Arguments::no_verify` from `src/config.rs`. -/
def Arguments.no_verify' (a : Arguments) : Bool :=
  match a.no_verify with
  | none => false
  | some none => true
  | some (some b) => b

/-- The `CommitMessageArguments` struct from `src/config.rs`.  The
`argument` field is an `i32` in the source; it is embedded as `Int`
(the 32-bit range is enforced at the deserialization boundary, see
`deserializeCommitMessageArguments`). -/
structure CommitMessageArguments where
  argument : Int
  case : Option String
  type_enums : Option (List String)
  deriving Repr, DecidableEq

/-- The `CustomTaskOptions` struct from `src/config.rs`. -/
structure CustomTaskOptions where
  name : String
  execute : Option (List String)
  deriving Repr, DecidableEq

/-- The `GlitterRc` struct from `src/config.rs`. -/
structure GlitterRc where
  commit_message : String
  arguments : Option (List Arguments)
  commit_message_arguments : Option (List CommitMessageArguments)
  fetch : Option Bool
  custom_tasks : Option (List CustomTaskOptions)
  hooks : Option (List String)
  __default : Option Bool
  deriving Repr, DecidableEq

/-- A config document presented to serde for deserializing a
`GlitterRc`: for each field of the struct, `none` records that the
key is absent from the document and `some v` that it is present with
value `v`. -/
structure GlitterRcDoc where
  commit_message : Option String
  arguments : Option (List Arguments)
  commit_message_arguments : Option (List CommitMessageArguments)
  fetch : Option Bool
  custom_tasks : Option (List CustomTaskOptions)
  hooks : Option (List String)
  __default : Option Bool
  deriving Repr, DecidableEq

/-- Serde-derived deserialization of `GlitterRc` as declared in
`src/config.rs`: `commit_message` carries `#[serde(default = "commit_msg")]`,
so a document without that key defaults it to `commit_msg`; every
other field is an `Option` and follows serde's rule for `Option`
fields (absent key gives `None`, present key gives `Some` of the
value) -- this includes the `__default` field, which carries no
`skip` attribute. -/
def deserializeGlitterRc (d : GlitterRcDoc) : GlitterRc :=
  { commit_message := d.commit_message.getD commit_msg
    arguments := d.arguments
    commit_message_arguments := d.commit_message_arguments
    fetch := d.fetch
    custom_tasks := d.custom_tasks
    hooks := d.hooks
    __default := d.__default }

/-- Serde-derived deserialization of the `CommitMessageArguments`
struct of `src/config.rs`: the `argument` field is `i32`, so serde
accepts any integer in the signed 32-bit range (and only the range
check constrains it -- the data model imposes no positivity or
1-basedness requirement); `case` and `type_enums` are plain `Option`
fields. -/
def deserializeCommitMessageArguments (n : Int) (c : Option String)
    (tes : Option (List String)) : Except String CommitMessageArguments :=
  if -2147483648 ≤ n ∧ n < 2147483648 then
    Except.ok { argument := n, case := c, type_enums := tes }
  else
    Except.error "invalid value: integer out of range for i32"

/-- Template-expansion errors of the TemplateEngine (spec section 7). -/
inductive ExpandError where
  | MissingArgument (n : Nat)
  | InvalidEnumValue (v : String)
  | UnknownCaseTransform (c : String)
  deriving Repr, DecidableEq

/-- Modelled from the spec: the snake case transform of the
TemplateEngine (the engine itself is not in the shown source
excerpt); spec section 8 fixes it by example
(so that the word MyFeature becomes my_feature). -/
def snakeCase (s : String) : String :=
  s.toList.foldl
    (fun acc c =>
      if c.isUpper && acc ≠ "" then acc ++ "_" ++ String.singleton c.toLower
      else acc.push c.toLower) ""

/-- Modelled from the spec: applying a CommitMessageArgumentSpec case
transform (spec section 4.3); snake is the one transform the spec
requires, and a spec naming a transform outside the supported set
fails with UnknownCaseTransform. -/
def applyCase (c : Option String) (v : String) : Except ExpandError String :=
  match c with
  | none => Except.ok v
  | some t => if t = "snake" then Except.ok (snakeCase v)
              else Except.error (ExpandError.UnknownCaseTransform t)

/-- Modelled from the spec: type-enum validation of a (post-transform)
value against a CommitMessageArgumentSpec (spec section 4.3):
if type_enums is present the value must be a member, case-sensitive,
else InvalidEnumValue. -/
def checkEnums (tes : Option (List String)) (v : String) :
    Except ExpandError String :=
  match tes with
  | none => Except.ok v
  | some es => if es.contains v then Except.ok v
               else Except.error (ExpandError.InvalidEnumValue v)

/-- Modelled from the spec: substituting placeholder number `n` (a
plain `$N`) from the 1-based positional-argument list (spec section
4.3): an index beyond the supplied positional arguments fails with
MissingArgument; otherwise the matching CommitMessageArgumentSpec (if
any) is applied before substitution. -/
def substArg (args : List String) (specs : List CommitMessageArguments)
    (n : Nat) : Except ExpandError String :=
  if n = 0 ∨ args.length < n then
    Except.error (ExpandError.MissingArgument n)
  else
    let v := (args.get? (n - 1)).getD ""
    match specs.find? (fun sp => sp.argument = (n : Int)) with
    | none => Except.ok v
    | some sp => Except.bind (applyCase sp.case v) (checkEnums sp.type_enums)

/-- Modelled from the spec: substituting a `$N+` placeholder (spec
section 4.3): arguments `N` through the end of the positional list,
joined by a single space; an index beyond the list fails with
MissingArgument. -/
def substRange (args : List String) (n : Nat) : Except ExpandError String :=
  if n = 0 ∨ args.length < n then
    Except.error (ExpandError.MissingArgument n)
  else
    Except.ok (String.intercalate " " (args.drop (n - 1)))

/-- Numeric value of a run of decimal digit characters. -/
def digitsToNat (ds : List Char) : Nat :=
  ds.foldl (fun a c => a * 10 + (c.toNat - 48)) 0

/-- Modelled from the spec: the left-to-right template scan of the
TemplateEngine (spec section 4.3, not in the shown source excerpt).
The first parameter is `none` in normal copying mode and `some ds`
while inside a `$`-placeholder with digit run `ds` accumulated so
far: `$N` substitutes the Nth positional argument, an immediately
following `+` turns it into an N-through-end space-join, and every
other character is copied verbatim. -/
def goExpand (args : List String) (specs : List CommitMessageArguments) :
    Option (List Char) → List Char → Except ExpandError String
  | none, [] => Except.ok ""
  | some ds, [] =>
      if ds.isEmpty then Except.ok "$"
      else substArg args specs (digitsToNat ds)
  | none, c :: cs =>
      if c = '$' then goExpand args specs (some []) cs
      else Except.map (fun t => String.singleton c ++ t)
        (goExpand args specs none cs)
  | some ds, c :: cs =>
      if c.isDigit then goExpand args specs (some (ds ++ [c])) cs
      else if ds.isEmpty then
        if c = '$' then
          Except.map (fun t => "$" ++ t) (goExpand args specs (some []) cs)
        else
          Except.map (fun t => "$" ++ String.singleton c ++ t)
            (goExpand args specs none cs)
      else if c = '+' then
        Except.bind (substRange args (digitsToNat ds)) (fun v =>
          Except.map (fun t => v ++ t) (goExpand args specs none cs))
      else if c = '$' then
        Except.bind (substArg args specs (digitsToNat ds)) (fun v =>
          Except.map (fun t => v ++ t) (goExpand args specs (some []) cs))
      else
        Except.bind (substArg args specs (digitsToNat ds)) (fun v =>
          Except.map (fun t => v ++ (String.singleton c ++ t))
            (goExpand args specs none cs))

/-- Modelled from the spec: `TemplateEngine.expand` (spec section 4.3,
not in the shown source excerpt).  When the resolved raw flag is
true it ignores the template and the specs entirely and returns the
positional arguments from the first onward joined by single spaces;
otherwise it scans the template. -/
def expand (template : String) (args : List String)
    (specs : List CommitMessageArguments) (rawFlag : Bool) :
    Except ExpandError String :=
  if rawFlag then Except.ok (String.intercalate " " args)
  else goExpand args specs none template.toList

/-- Resolution of a tri-state flag value to a boolean, as in the four
accessors of `impl Arguments` in `src/config.rs`. -/
def resolveTri (x : Option (Option Bool)) : Bool :=
  match x with
  | none => false
  | some none => true
  | some (some b) => b

/-- The `default_value = ".glitterrc"` of the `rc_path` field's
structopt attribute in `src/config.rs`. -/
def defaultRcPath : String := ".glitterrc"

/-- Modelled from the spec: construction of an `Arguments` value by
the external CLI tokenizer (structopt, a black box per spec section
1); each flag is passed as parsed from the command line, and
`rc_path` falls back to the structopt default `.glitterrc` when no
`--rc` flag was supplied (`rc` is `none`). -/
def mkArguments (action : String) (args : List String) (rc : Option String)
    (branch : Option String) (d nh rw nv : Option (Option Bool)) : Arguments :=
  { action := action
    arguments := args
    rc_path := rc.getD defaultRcPath
    branch := branch
    dry := d
    nohost := nh
    raw := rw
    no_verify := nv }

/-- The result of argument resolution: one effective argument set for
the requested action, with every scalar field resolved (spec section
4.2, ResolvedArguments). -/
structure ResolvedArguments where
  action : String
  arguments : List String
  rc_path : String
  branch : String
  dry : Bool
  nohost : Bool
  raw : Bool
  no_verify : Bool
  deriving Repr, DecidableEq

/-- Modelled from the spec: the per-action override lookup of the
ArgumentResolver (spec section 4.2, not in the shown source excerpt):
the entry of `config.arguments` whose `action` matches the CLI
action, if any. -/
def lookupAction (cfg : GlitterRc) (act : String) : Option Arguments :=
  (cfg.arguments.getD []).find? (fun a => a.action = act)

/-- Precedence for one tri-state flag (spec section 4.2): a CLI-set
flag wins, else the per-action override's flag, else the global
default `false`. -/
def resolveFlagField (cli ov : Option (Option Bool)) : Bool :=
  match cli with
  | some x => resolveTri (some x)
  | none => resolveTri ov

/-- Modelled from the spec: `ArgumentResolver.resolve` (spec section
4.2, not in the shown source excerpt).  For each scalar field
(branch, the four flags, rc_path) precedence is CLI-explicit value,
then per-action config override, then global default (empty string /
`.glitterrc` / false); the positional-argument list is the CLI list
as-is.  A CLI `rc_path` is explicit exactly when it differs from the
structopt default. -/
def resolve (cli : Arguments) (cfg : GlitterRc) : ResolvedArguments :=
  let ov := lookupAction cfg cli.action
  { action := cli.action
    arguments := cli.arguments
    rc_path :=
      if cli.rc_path ≠ defaultRcPath then cli.rc_path
      else match ov with
           | some o => o.rc_path
           | none => defaultRcPath
    branch :=
      match cli.branch with
      | some b => b
      | none =>
          match ov with
          | some o => o.branch.getD ""
          | none => ""
    dry := resolveFlagField cli.dry (Option.bind ov (fun o => o.dry))
    nohost := resolveFlagField cli.nohost (Option.bind ov (fun o => o.nohost))
    raw := resolveFlagField cli.raw (Option.bind ov (fun o => o.raw))
    no_verify :=
      resolveFlagField cli.no_verify (Option.bind ov (fun o => o.no_verify)) }

/-- Detection of a repeated task name in a custom-task list: true
exactly when two entries share a name. -/
def hasDuplicateTaskName : List CustomTaskOptions → Bool
  | [] => false
  | t :: ts => ts.any (fun u => u.name = t.name) || hasDuplicateTaskName ts

/-- Modelled from the spec: configuration validation of custom-task
names (spec section 3 invariants, not in the shown source excerpt):
CustomTaskOptions names must be unique within a config, and duplicate
names is a configuration error, so a config with a duplicated name is
rejected (validation returns false). -/
def validateCustomTasks (cfg : GlitterRc) : Bool :=
  !hasDuplicateTaskName (cfg.custom_tasks.getD [])

/-- Claim C1: for every `Arguments` value, each of the four flag
accessors `dry'`, `nohost'`, `raw'`, `no_verify'` resolves its
tri-state field to a boolean as: `false` when unset (`none`), `true`
when set bare (`some none`), and the wrapped value `b` when set
explicitly (`some (some b)`); and each accessor is a total function
of its own field alone (two `Arguments` agreeing on that field get
the same accessor value). -/
theorem tri_state_flag_accessors (a : Arguments) :
    (a.dry = none → a.dry' = false) ∧
    (a.dry = some none → a.dry' = true) ∧
    (∀ b, a.dry = some (some b) → a.dry' = b) ∧
    (a.nohost = none → a.nohost' = false) ∧
    (a.nohost = some none → a.nohost' = true) ∧
    (∀ b, a.nohost = some (some b) → a.nohost' = b) ∧
    (a.raw = none → a.raw' = false) ∧
    (a.raw = some none → a.raw' = true) ∧
    (∀ b, a.raw = some (some b) → a.raw' = b) ∧
    (a.no_verify = none → a.no_verify' = false) ∧
    (a.no_verify = some none → a.no_verify' = true) ∧
    (∀ b, a.no_verify = some (some b) → a.no_verify' = b) ∧
    (∀ a2 : Arguments, a.dry = a2.dry → a.dry' = a2.dry') ∧
    (∀ a2 : Arguments, a.nohost = a2.nohost → a.nohost' = a2.nohost') ∧
    (∀ a2 : Arguments, a.raw = a2.raw → a.raw' = a2.raw') ∧
    (∀ a2 : Arguments, a.no_verify = a2.no_verify →
       a.no_verify' = a2.no_verify') := by
  refine ⟨fun h => by simp [Arguments.dry', h],
          fun h => by simp [Arguments.dry', h],
          fun b h => by simp [Arguments.dry', h],
          fun h => by simp [Arguments.nohost', h],
          fun h => by simp [Arguments.nohost', h],
          fun b h => by simp [Arguments.nohost', h],
          fun h => by simp [Arguments.raw', h],
          fun h => by simp [Arguments.raw', h],
          fun b h => by simp [Arguments.raw', h],
          fun h => by simp [Arguments.no_verify', h],
          fun h => by simp [Arguments.no_verify', h],
          fun b h => by simp [Arguments.no_verify', h],
          fun a2 h => by simp [Arguments.dry', h],
          fun a2 h => by simp [Arguments.nohost', h],
          fun a2 h => by simp [Arguments.raw', h],
          fun a2 h => by simp [Arguments.no_verify', h]⟩

/-- A sample `Arguments` value with a bare `--dry` flag. -/
def exArgs : Arguments :=
  { action := "push"
    arguments := ["fix", "stuff"]
    rc_path := ".glitterrc"
    branch := none
    dry := some none
    nohost := none
    raw := some (some false)
    no_verify := some (some true) }

/-- Witness for C1 at a concrete `Arguments` value. -/
theorem tri_state_flag_accessors_witness :
    exArgs.dry = some none ∧ exArgs.dry' = true :=
  ⟨rfl, (tri_state_flag_accessors exArgs).2.1 rfl⟩

/-- Claim C2: the default function `commit_msg` returns the string
`$1+`, and deserializing a `GlitterRc` from a document with no
`commit_message` key succeeds with `commit_message` equal to `$1+`. -/
theorem commit_message_default :
    commit_msg = "$1+" ∧
    ∀ d : GlitterRcDoc, d.commit_message = none →
      (deserializeGlitterRc d).commit_message = "$1+" :=
  ⟨rfl, fun d h => by simp [deserializeGlitterRc, h, commit_msg]⟩

/-- Witness for C2 at a concrete document with no keys at all. -/
theorem commit_message_default_witness :
    ({ commit_message := none, arguments := none,
       commit_message_arguments := none, fetch := none,
       custom_tasks := none, hooks := none,
       __default := none } : GlitterRcDoc).commit_message = none ∧
    (deserializeGlitterRc
      { commit_message := none, arguments := none,
        commit_message_arguments := none, fetch := none,
        custom_tasks := none, hooks := none,
        __default := none }).commit_message = "$1+" :=
  ⟨rfl, commit_message_default.2 _ rfl⟩

/-- Claim C3: when the resolved raw flag is true, template expansion
returns the positional arguments from the first onward joined by
single spaces, ignoring the configured template and the
commit-message argument specs entirely; in particular for template
`$1($2): $3+` and arguments x, y, z raw-mode expansion yields the
string "x y z". -/
theorem raw_mode_ignores_template :
    (∀ (template : String) (args : List String)
       (specs : List CommitMessageArguments),
       expand template args specs true
         = Except.ok (String.intercalate " " args)) ∧
    expand "$1($2): $3+" ["x", "y", "z"] [] true = Except.ok "x y z" :=
  ⟨fun _ _ _ => rfl, rfl⟩

/-- Claim C8: when no `--rc` flag is supplied on the CLI (the `rc`
part of the tokenizer input is `none`), the constructed `Arguments`
has `rc_path` equal to `.glitterrc`. -/
theorem rc_path_defaults_to_glitterrc :
    ∀ (action : String) (args : List String) (branch : Option String)
      (d nh rw nv : Option (Option Bool)),
      (mkArguments action args none branch d nh rw nv).rc_path
        = ".glitterrc" :=
  fun _ _ _ _ _ _ _ => rfl

/-- Counterexample for C9: two config documents differing only in
their `__default` key deserialize to configs with different
`__default` values, so the field's deserialized value does depend on
the user-supplied document. -/
theorem default_marker_not_hidden_cex :
    (({ commit_message := none, arguments := none,
        commit_message_arguments := none, fetch := none,
        custom_tasks := none, hooks := none,
        __default := none } : GlitterRcDoc).commit_message
      = ({ commit_message := none, arguments := none,
           commit_message_arguments := none, fetch := none,
           custom_tasks := none, hooks := none,
           __default := some true } : GlitterRcDoc).commit_message) ∧
    (deserializeGlitterRc
      { commit_message := none, arguments := none,
        commit_message_arguments := none, fetch := none,
        custom_tasks := none, hooks := none,
        __default := none }).__default = none ∧
    (deserializeGlitterRc
      { commit_message := none, arguments := none,
        commit_message_arguments := none, fetch := none,
        custom_tasks := none, hooks := none,
        __default := some true }).__default = some true ∧
    (none : Option Bool) ≠ some true :=
  ⟨rfl, rfl, rfl, by decide⟩

/-- Claim C9 (amended): the `__default` field is an ordinary
deserialized field with no skip attribute: its value in the
deserialized config equals the document's `__default` entry (`none`
when the key is absent), so a document can set it and two documents
differing only in `__default` deserialize to different configs. -/
theorem default_marker_mirrors_document :
    ∀ d : GlitterRcDoc, (deserializeGlitterRc d).__default = d.__default :=
  fun _ => rfl

/-- Claim C10: every integer in the signed 32-bit range, including
zero and negative values, is accepted by deserialization as the
`argument` field of a `CommitMessageArguments`: the data model itself
imposes no positivity, 1-basedness or in-range-of-arguments
constraint. -/
theorem argument_index_unconstrained :
    ∀ (n : Int) (c : Option String) (tes : Option (List String)),
      -2147483648 ≤ n → n < 2147483648 →
      deserializeCommitMessageArguments n c tes
        = Except.ok { argument := n, case := c, type_enums := tes } ∧
      ({ argument := n, case := c,
         type_enums := tes } : CommitMessageArguments).argument = n := by
  intro n c tes h1 h2
  exact ⟨by simp [deserializeCommitMessageArguments, h1, h2], rfl⟩

/-- Witness for C10 at the negative index -7. -/
theorem argument_index_unconstrained_witness :
    (-2147483648 : Int) ≤ -7 ∧ (-7 : Int) < 2147483648 ∧
    deserializeCommitMessageArguments (-7) none none
      = Except.ok { argument := -7, case := none, type_enums := none } :=
  ⟨by decide, by decide,
   (argument_index_unconstrained (-7) none none (by decide) (by decide)).1⟩

/-- Claim C4: template expansion substitutes a plain placeholder with
the N-th (1-based) positional argument and a `+`-suffixed placeholder
with arguments N through the end joined by single spaces; template
`$1+` against a, b, c yields "a b c" and `$1($2): $3+` against fix,
core, message, here yields "fix(core): message here" (every other
character copied verbatim). -/
theorem template_placeholder_expansion :
    (∀ (args : List String) (n : Nat) (v : String),
       n ≠ 0 → args.get? (n - 1) = some v →
       substArg args [] n = Except.ok v) ∧
    (∀ (args : List String) (n : Nat),
       1 ≤ n → n ≤ args.length →
       substRange args n
         = Except.ok (String.intercalate " " (args.drop (n - 1)))) ∧
    expand "$1+" ["a", "b", "c"] [] false = Except.ok "a b c" ∧
    expand "$1($2): $3+" ["fix", "core", "message", "here"] [] false
      = Except.ok "fix(core): message here" := by
  refine ⟨?_, ?_, rfl, rfl⟩
  · intro args n v hn hv
    have hlt : n - 1 < args.length := (List.get?_eq_some.mp hv).1
    have hcond : ¬ (n = 0 ∨ args.length < n) := by omega
    have hv2 : args[n - 1]? = some v := by
      rw [← List.get?_eq_getElem?]; exact hv
    simp [substArg, hcond, hv2, List.find?]
  · intro args n h1 h2
    have hcond : ¬ (n = 0 ∨ args.length < n) := by omega
    simp [substRange, hcond]

/-- Witness for C4 at a concrete in-range index. -/
theorem template_placeholder_expansion_witness :
    (2 : Nat) ≠ 0 ∧ (["a", "b", "c"] : List String).get? (2 - 1) = some "b" ∧
    substArg ["a", "b", "c"] [] 2 = Except.ok "b" :=
  ⟨by decide, rfl,
   template_placeholder_expansion.1 ["a", "b", "c"] 2 "b" (by decide) rfl⟩

/-- The CLI invocation of action commit with no branch flag. -/
def cliCommitNoBranch : Arguments :=
  { action := "commit"
    arguments := ["fix", "stuff"]
    rc_path := ".glitterrc"
    branch := none
    dry := none
    nohost := none
    raw := none
    no_verify := none }

/-- The CLI invocation of action commit with an explicit branch dev. -/
def cliCommitDev : Arguments :=
  { cliCommitNoBranch with branch := some "dev" }

/-- A config whose per-action override for action commit sets the
branch to main. -/
def cfgMainOverride : GlitterRc :=
  { commit_message := "$1+"
    arguments := some [
      { action := "commit"
        arguments := []
        rc_path := ".glitterrc"
        branch := some "main"
        dry := none
        nohost := none
        raw := none
        no_verify := none }]
    commit_message_arguments := none
    fetch := none
    custom_tasks := none
    hooks := none
    __default := none }

/-- Claim C5: for every scalar field of the resolved arguments
(branch, the four flags, rc_path), resolution gives precedence
CLI-explicit value over per-action config override over global
default; in particular, with a config override setting branch main
for action commit, a CLI invocation of commit without a branch flag
resolves the branch to main, and one with branch dev resolves it to
dev regardless of the config. -/
theorem scalar_field_precedence :
    (∀ (cli : Arguments) (cfg : GlitterRc) (b : String),
       cli.branch = some b → (resolve cli cfg).branch = b) ∧
    (∀ (cli : Arguments) (cfg : GlitterRc) (o : Arguments),
       cli.branch = none → lookupAction cfg cli.action = some o →
       (resolve cli cfg).branch = o.branch.getD "") ∧
    (∀ (cli : Arguments) (cfg : GlitterRc),
       cli.branch = none → lookupAction cfg cli.action = none →
       (resolve cli cfg).branch = "") ∧
    (∀ (cli : Arguments) (cfg : GlitterRc) (x : Option Bool),
       cli.dry = some x → (resolve cli cfg).dry = resolveTri (some x)) ∧
    (∀ (cli : Arguments) (cfg : GlitterRc),
       cli.dry = none →
       (resolve cli cfg).dry
         = resolveTri (Option.bind (lookupAction cfg cli.action)
             (fun o => o.dry))) ∧
    (∀ (cli : Arguments) (cfg : GlitterRc) (x : Option Bool),
       cli.nohost = some x → (resolve cli cfg).nohost = resolveTri (some x)) ∧
    (∀ (cli : Arguments) (cfg : GlitterRc),
       cli.nohost = none →
       (resolve cli cfg).nohost
         = resolveTri (Option.bind (lookupAction cfg cli.action)
             (fun o => o.nohost))) ∧
    (∀ (cli : Arguments) (cfg : GlitterRc) (x : Option Bool),
       cli.raw = some x → (resolve cli cfg).raw = resolveTri (some x)) ∧
    (∀ (cli : Arguments) (cfg : GlitterRc),
       cli.raw = none →
       (resolve cli cfg).raw
         = resolveTri (Option.bind (lookupAction cfg cli.action)
             (fun o => o.raw))) ∧
    (∀ (cli : Arguments) (cfg : GlitterRc) (x : Option Bool),
       cli.no_verify = some x →
       (resolve cli cfg).no_verify = resolveTri (some x)) ∧
    (∀ (cli : Arguments) (cfg : GlitterRc),
       cli.no_verify = none →
       (resolve cli cfg).no_verify
         = resolveTri (Option.bind (lookupAction cfg cli.action)
             (fun o => o.no_verify))) ∧
    (∀ (cli : Arguments) (cfg : GlitterRc),
       cli.rc_path ≠ defaultRcPath →
       (resolve cli cfg).rc_path = cli.rc_path) ∧
    (∀ (cli : Arguments) (cfg : GlitterRc) (o : Arguments),
       cli.rc_path = defaultRcPath → lookupAction cfg cli.action = some o →
       (resolve cli cfg).rc_path = o.rc_path) ∧
    (∀ (cli : Arguments) (cfg : GlitterRc),
       cli.rc_path = defaultRcPath → lookupAction cfg cli.action = none →
       (resolve cli cfg).rc_path = defaultRcPath) ∧
    (resolve cliCommitNoBranch cfgMainOverride).branch = "main" ∧
    (resolve cliCommitDev cfgMainOverride).branch = "dev" := by
  refine ⟨fun cli cfg b h => by simp [resolve, h],
          fun cli cfg o h ho => by simp [resolve, h, ho],
          fun cli cfg h ho => by simp [resolve, h, ho],
          fun cli cfg x h => by simp [resolve, resolveFlagField, h],
          fun cli cfg h => by simp [resolve, resolveFlagField, h],
          fun cli cfg x h => by simp [resolve, resolveFlagField, h],
          fun cli cfg h => by simp [resolve, resolveFlagField, h],
          fun cli cfg x h => by simp [resolve, resolveFlagField, h],
          fun cli cfg h => by simp [resolve, resolveFlagField, h],
          fun cli cfg x h => by simp [resolve, resolveFlagField, h],
          fun cli cfg h => by simp [resolve, resolveFlagField, h],
          fun cli cfg h => by simp [resolve, h],
          fun cli cfg o h ho => by simp [resolve, h, ho],
          fun cli cfg h ho => by simp [resolve, h, ho],
          rfl, rfl⟩

/-- Witness for C5: the dev branch of the explicit CLI flag wins over
the main override of the config. -/
theorem scalar_field_precedence_witness :
    cliCommitDev.branch = some "dev" ∧
    (resolve cliCommitDev cfgMainOverride).branch = "dev" :=
  ⟨rfl, scalar_field_precedence.1 cliCommitDev cfgMainOverride "dev" rfl⟩

/-- Duplicate-name detection is exactly the failure of `Nodup` on the
list of task names. -/
theorem hasDuplicateTaskName_eq_false_iff (ts : List CustomTaskOptions) :
    hasDuplicateTaskName ts = false ↔ (ts.map (fun t => t.name)).Nodup := by
  induction ts with
  | nil => simp [hasDuplicateTaskName]
  | cons t ts ih =>
      simp only [hasDuplicateTaskName, Bool.or_eq_false_iff, ih,
        List.map_cons, List.nodup_cons, List.mem_map]
      constructor
      · rintro ⟨h1, h2⟩
        refine ⟨?_, h2⟩
        rintro ⟨u, hu, hname⟩
        have : ts.any (fun u => u.name = t.name) = true :=
          List.any_eq_true.mpr ⟨u, hu, by simp [hname]⟩
        simp [this] at h1
      · rintro ⟨h1, h2⟩
        refine ⟨?_, h2⟩
        by_contra h
        rcases List.any_eq_true.mp (eq_true_of_ne_false h)
          with ⟨u, hu, hname⟩
        exact h1 ⟨u, hu, by simpa using hname⟩

/-- Claim C6: custom-task names are unique within a configuration: a
config whose `custom_tasks` list contains two entries with the same
name (its name list is not `Nodup`) is rejected by configuration
validation. -/
theorem custom_task_names_unique :
    ∀ (cfg : GlitterRc) (ts : List CustomTaskOptions),
      cfg.custom_tasks = some ts →
      ¬ (ts.map (fun t => t.name)).Nodup →
      validateCustomTasks cfg = false := by
  intro cfg ts h hd
  simp only [validateCustomTasks, h, Option.getD_some, Bool.not_eq_false']
  cases hdup : hasDuplicateTaskName ts with
  | true => rfl
  | false => exact absurd ((hasDuplicateTaskName_eq_false_iff ts).mp hdup) hd

/-- A custom-task list with the name fmt repeated. -/
def dupTasksList : List CustomTaskOptions :=
  [{ name := "fmt", execute := some ["cargo fmt"] },
   { name := "fmt", execute := none }]

/-- A config carrying the duplicated custom-task list. -/
def cfgDupTasks : GlitterRc :=
  { commit_message := "$1+"
    arguments := none
    commit_message_arguments := none
    fetch := none
    custom_tasks := some dupTasksList
    hooks := none
    __default := none }

/-- Witness for C6 at a config with two tasks named fmt. -/
theorem custom_task_names_unique_witness :
    cfgDupTasks.custom_tasks = some dupTasksList ∧
    ¬ (dupTasksList.map (fun t => t.name)).Nodup ∧
    validateCustomTasks cfgDupTasks = false :=
  ⟨rfl, by decide,
   custom_task_names_unique cfgDupTasks dupTasksList rfl (by decide)⟩

/-- Claim C7: a placeholder index beyond the supplied positional
arguments makes resolution/expansion fail with MissingArgument, both
for plain and for range placeholders; in particular `$5` against a
3-element argument list fails with MissingArgument. -/
theorem missing_argument_failure :
    (∀ (args : List String) (specs : List CommitMessageArguments) (n : Nat),
       args.length < n →
       substArg args specs n
         = Except.error (ExpandError.MissingArgument n)) ∧
    (∀ (args : List String) (n : Nat),
       args.length < n →
       substRange args n = Except.error (ExpandError.MissingArgument n)) ∧
    expand "$5" ["a", "b", "c"] [] false
      = Except.error (ExpandError.MissingArgument 5) := by
  refine ⟨?_, ?_, rfl⟩
  · intro args specs n h
    rw [substArg, if_pos (Or.inr h)]
  · intro args n h
    rw [substRange, if_pos (Or.inr h)]

/-- Witness for C7: index 5 against three arguments. -/
theorem missing_argument_failure_witness :
    (["a", "b", "c"] : List String).length < 5 ∧
    substArg ["a", "b", "c"] [] 5
      = Except.error (ExpandError.MissingArgument 5) :=
  ⟨by decide, missing_argument_failure.1 ["a", "b", "c"] [] 5 (by decide)⟩
